import Mathlib

/-!
Shallow embedding of `boiler.py` (class `Boiler`): a stateful simulation of a
steam boiler plant built from optional accessories (feed pump, economiser,
air preheater, boiler proper, superheater).

Modelling decisions, matched to Python semantics:

* Python floats become `ℚ`; the module constants are embedded exactly.
* Optional instance attributes (set by some later method, probed with
  `hasattr`) become `Option ℚ` fields or a `Bool` flag; reading an attribute
  that was never assigned raises `Err.attributeError`, as in Python.
* Exceptions do not roll back mutations already performed on `self`, so each
  mutating method returns `Boiler × Option Err`: the state of the object
  after the call (including partial mutation when the call raised) together
  with the raised error, if any.
* Division by a caller-influenced quantity is `pydiv`, which raises
  `Err.zeroDivision` on a zero divisor, as Python does; division by the
  nonzero module constant `cpwater` cannot raise and stays plain division.
* The external steam property provider (`from state import State`, not part
  of this repository) is a parameter `SteamTables` of the lookup-using
  methods; its lookups may fail with `Err.invalidState`.
-/

/-- Error kinds observable from the Python code.  `typeError` is Python's
`TypeError` (wrong number of arguments in a call); `invalidEfficiency` is the
`ValueError` raised inside `_check_eff`; `precondition` is the `ValueError`
raised by the explicit "please fit ..." checks; `missingParameter` is the
`ValueError` raised by `air_preheater` when no outlet temperature is
available; `attributeError` is Python's `AttributeError` on reading a missing
attribute; `invalidState` is a failure surfaced from the steam property
provider; `zeroDivision` is Python's `ZeroDivisionError`. -/
inductive Err : Type
  | typeError
  | invalidEfficiency
  | precondition
  | missingParameter
  | attributeError
  | invalidState
  | zeroDivision
deriving DecidableEq

/-- Python division: raises `ZeroDivisionError` on a zero divisor. -/
def pydiv (a b : ℚ) : Except Err ℚ :=
  if b = 0 then Except.error Err.zeroDivision else Except.ok (a / b)

/-- Constant `specific_volume = 0.01602` (boiler.py line 3). -/
def specific_volume : ℚ := 1602 / 100000

/-- Constant `cpair = 1.0` (boiler.py line 4). -/
def cpair : ℚ := 1

/-- Constant `cpwater = 4.1855` (boiler.py line 5). -/
def cpwater : ℚ := 41855 / 10000

/-- The external steam property provider (`state.State`).  `tempPX P x` is
`State(P=P, x=x).getTemp()`, `enthalpyPX P x` is
`State(P=P, x=x).getEnthalpy()`, `enthalpyTX T x` is
`State(T=T, x=x).getEnthalpy()`.  Any lookup may fail (out-of-range or
inconsistent state). -/
structure SteamTables : Type where
  tempPX : ℚ → ℚ → Except Err ℚ
  enthalpyPX : ℚ → ℚ → Except Err ℚ
  enthalpyTX : ℚ → ℚ → Except Err ℚ

/-- The attributes of a `Boiler` instance.  Fields assigned in `__init__`
(lines 29-33) are plain `ℚ`; attributes only assigned by later methods are
`Option ℚ`, `none` meaning "attribute absent" (`hasattr` false); the
`hasattr`-probed flags `pump_present` and `economiser_present` are `Bool`
(they are only ever assigned `True`). -/
structure Boiler : Type where
  input_pressure : ℚ
  pump_present : Bool
  output_pressure_pump : Option ℚ
  pump_work : ℚ
  economiser_present : Bool
  econ_T1 : Option ℚ
  econ_T2 : Option ℚ
  flue_T1 : Option ℚ
  flue_T2 : Option ℚ
  economiser_heat : ℚ
  air_heat : ℚ
  h1 : Option ℚ
  h2 : Option ℚ
  boiler_heat : Option ℚ
  final_temp : Option ℚ
  superheater_heat : ℚ
deriving DecidableEq

namespace Boiler

/-- Constructor `Boiler.__init__` (lines 24-33): stores the input pressure and zeroes
`pump_work`, `economiser_heat`, `air_heat`, `superheater_heat`; every other
attribute is absent. -/
def init (P1 : ℚ) : Boiler :=
  { input_pressure := P1
    pump_present := false
    output_pressure_pump := none
    pump_work := 0
    economiser_present := false
    econ_T1 := none
    econ_T2 := none
    flue_T1 := none
    flue_T2 := none
    economiser_heat := 0
    air_heat := 0
    h1 := none
    h2 := none
    boiler_heat := none
    final_temp := none
    superheater_heat := 0 }

/-- The body of `_check_eff` (lines 17-21), as the one-parameter function it
is declared to be: rejects an efficiency above 1 or below 0 with the
`ValueError` "Efficiency should be in between zero and one.". -/
def check_eff (eff : ℚ) : Except Err ℚ :=
  if eff > 1 ∨ eff < 0 then Except.error Err.invalidEfficiency
  else Except.ok eff

/-- Number of positional arguments Python passes in the call
`self._check_eff(eff)`: the receiver plus the explicit argument. -/
def self_check_eff_suppliedArgs : Nat := 2

/-- Number of parameters `_check_eff` declares (line 17: `def _check_eff(eff)`,
no `self`). -/
def check_eff_declaredParams : Nat := 1

/-- The call `self._check_eff(eff)` as it appears at lines 43, 96, 116 and
142.  `_check_eff` is declared with the single parameter `eff` and no `self`,
but it is accessed through the instance, so the bound call supplies two
positional arguments to a one-parameter function and Python raises
`TypeError` before the body of `_check_eff` can run. -/
def self_check_eff (eff : ℚ) : Except Err ℚ :=
  if self_check_eff_suppliedArgs = check_eff_declaredParams then check_eff eff
  else Except.error Err.typeError

/-- Method `Boiler.feed_pump` (lines 36-48).  In source order: the `self._check_eff`
call, then `pump_present = True`, `output_pressure_pump = P2`,
`pump_work = specific_volume*(P2 - input_pressure)`, and finally
`pump_work *= 1/eff` when `eff != 1`. -/
def feed_pump (self : Boiler) (P2 : ℚ) (eff : ℚ) : Boiler × Option Err :=
  match self_check_eff eff with
  | Except.error e => (self, some e)
  | Except.ok eff =>
    let s1 : Boiler :=
      { self with
        pump_present := true
        output_pressure_pump := some P2
        pump_work := specific_volume * (P2 - self.input_pressure) }
    if eff ≠ 1 then
      match pydiv 1 eff with
      | Except.error e => (s1, some e)
      | Except.ok r => ({ s1 with pump_work := s1.pump_work * r }, none)
    else (s1, none)

/-- The flue-gas temperature normalisation of `economiser` (lines 71-72):
`if f2 > f1: f2, f1 = f1, f2`, returning the pair `(f1, f2)` after the
conditional swap. -/
def orderFlue (f1 f2 : ℚ) : ℚ × ℚ :=
  if f2 > f1 then (f2, f1) else (f1, f2)

/-- Method `Boiler.economiser` (lines 51-76).  In source order:
`economiser_present = True`; choose the inlet pressure from the pump if
fitted, else the plant input pressure; look up the saturated-liquid
temperature there (`econ_T1`); normalise the flue temperatures; set
`flue_T1`, `flue_T2`; compute
`econ_T2 = econ_T1 + cpair*(flue_T1 - flue_T2)/cpwater`. -/
def economiser (tbl : SteamTables) (self : Boiler) (f1 f2 : ℚ) :
    Boiler × Option Err :=
  let s1 : Boiler := { self with economiser_present := true }
  match (if s1.pump_present then s1.output_pressure_pump
         else some s1.input_pressure) with
  | none => (s1, some Err.attributeError)
  | some P1 =>
    match tbl.tempPX P1 0 with
    | Except.error e => (s1, some e)
    | Except.ok t1 =>
      let s2 : Boiler := { s1 with econ_T1 := some t1 }
      let fp := orderFlue f1 f2
      let s3 : Boiler := { s2 with flue_T1 := some fp.1, flue_T2 := some fp.2 }
      ({ s3 with econ_T2 := some (t1 + cpair * (fp.1 - fp.2) / cpwater) }, none)

/-- Method `Boiler.effectiveness` (lines 79-85): raises the precondition
`ValueError` when no economiser is present, otherwise returns
`(econ_T2 - econ_T1)/(flue_T1 - econ_T1)`.  Pure query, no mutation. -/
def effectiveness (self : Boiler) : Except Err ℚ :=
  if ¬ self.economiser_present then Except.error Err.precondition
  else
    match self.econ_T2, self.econ_T1, self.flue_T1 with
    | some t2, some t1, some ft1 => pydiv (t2 - t1) (ft1 - t1)
    | _, _, _ => Except.error Err.attributeError

/-- Method `Boiler.air_preheater` (lines 88-105).  In source order: the
`self._check_eff` call; if the economiser is present, `Tp2 = flue_T2`
(overriding the argument); `elif not Tp2` (Python falsiness: `None` or `0`)
raise the missing-parameter `ValueError`; then
`air_heat = cpair*(Tp2 - Tp1)`, and `air_heat *= 1/eff` when `eff != 1`. -/
def air_preheater (self : Boiler) (Tp1 : ℚ) (Tp2 : Option ℚ) (eff : ℚ) :
    Boiler × Option Err :=
  match self_check_eff eff with
  | Except.error e => (self, some e)
  | Except.ok eff =>
    match (if self.economiser_present then
             match self.flue_T2 with
             | none => Except.error Err.attributeError
             | some v => Except.ok v
           else
             match Tp2 with
             | none => Except.error Err.missingParameter
             | some v =>
               if v = 0 then Except.error Err.missingParameter
               else Except.ok v) with
    | Except.error e => (self, some e)
    | Except.ok tp2 =>
      let s1 : Boiler := { self with air_heat := cpair * (tp2 - Tp1) }
      if eff ≠ 1 then
        match pydiv 1 eff with
        | Except.error e => (s1, some e)
        | Except.ok r => ({ s1 with air_heat := s1.air_heat * r }, none)
      else (s1, none)

/-- The tail of `Boiler.boiler` (lines 131-134): `final_temp = Tb`,
`boiler_heat = h2 - h1`, then `boiler_heat *= eff` when `eff != 1` (note:
multiplied by `eff`, not divided). -/
def boiler_tail (self : Boiler) (Tb hv1 hv2 eff : ℚ) : Boiler × Option Err :=
  let s1 : Boiler := { self with final_temp := some Tb }
  let s2 : Boiler := { s1 with boiler_heat := some (hv2 - hv1) }
  if eff ≠ 1 then
    ({ s2 with boiler_heat := some ((hv2 - hv1) * eff) }, none)
  else (s2, none)

/-- Method `Boiler.boiler` (lines 108-134).  In source order: the `self._check_eff`
call; then the operating point by priority economiser > pump > input
pressure.  Economiser path: `Tb = econ_T2`, enthalpies looked up at
temperature `Tb`, qualities 0 and 1.  Pump path: pressure
`output_pressure_pump`; enthalpies at that pressure, qualities 0 and 1, and
`Tb` the saturation temperature there.  Default path: the same with
`input_pressure`.  Each lookup assigns `h1` resp. `h2` as it succeeds; then
`final_temp = Tb`, `boiler_heat = h2 - h1`, scaled by `eff` when
`eff != 1`. -/
def boiler (tbl : SteamTables) (self : Boiler) (eff : ℚ) :
    Boiler × Option Err :=
  match self_check_eff eff with
  | Except.error e => (self, some e)
  | Except.ok eff =>
    if self.economiser_present then
      match self.econ_T2 with
      | none => (self, some Err.attributeError)
      | some Tb =>
        match tbl.enthalpyTX Tb 0 with
        | Except.error e => (self, some e)
        | Except.ok hv1 =>
          let s1 : Boiler := { self with h1 := some hv1 }
          match tbl.enthalpyTX Tb 1 with
          | Except.error e => (s1, some e)
          | Except.ok hv2 =>
            boiler_tail { s1 with h2 := some hv2 } Tb hv1 hv2 eff
    else if self.pump_present then
      match self.output_pressure_pump with
      | none => (self, some Err.attributeError)
      | some Pb =>
        match tbl.enthalpyPX Pb 0 with
        | Except.error e => (self, some e)
        | Except.ok hv1 =>
          let s1 : Boiler := { self with h1 := some hv1 }
          match tbl.enthalpyPX Pb 1 with
          | Except.error e => (s1, some e)
          | Except.ok hv2 =>
            let s2 : Boiler := { s1 with h2 := some hv2 }
            match tbl.tempPX Pb 1 with
            | Except.error e => (s2, some e)
            | Except.ok Tb => boiler_tail s2 Tb hv1 hv2 eff
    else
      let Pb := self.input_pressure
      match tbl.enthalpyPX Pb 0 with
      | Except.error e => (self, some e)
      | Except.ok hv1 =>
        let s1 : Boiler := { self with h1 := some hv1 }
        match tbl.enthalpyPX Pb 1 with
        | Except.error e => (s1, some e)
        | Except.ok hv2 =>
          let s2 : Boiler := { s1 with h2 := some hv2 }
          match tbl.tempPX Pb 1 with
          | Except.error e => (s2, some e)
          | Except.ok Tb => boiler_tail s2 Tb hv1 hv2 eff

/-- Method `Boiler.superheater` (lines 137-152).  In source order: the
`self._check_eff` call; the precondition `ValueError` when `boiler_heat` is
absent; `superheater_heat = 0` when the target is below the current
`final_temp`, else `cpwater*(target - final_temp)`;
`final_temp = target`; finally `superheater_heat *= 1/eff` when
`eff != 1`. -/
def superheater (self : Boiler) (final_temp : ℚ) (eff : ℚ) :
    Boiler × Option Err :=
  match self_check_eff eff with
  | Except.error e => (self, some e)
  | Except.ok eff =>
    if self.boiler_heat = none then (self, some Err.precondition)
    else
      match self.final_temp with
      | none => (self, some Err.attributeError)
      | some ft =>
        let s1 : Boiler :=
          if final_temp < ft then { self with superheater_heat := 0 }
          else { self with superheater_heat := cpwater * (final_temp - ft) }
        let s2 : Boiler := { s1 with final_temp := some final_temp }
        if eff ≠ 1 then
          match pydiv 1 eff with
          | Except.error e => (s2, some e)
          | Except.ok r =>
            ({ s2 with superheater_heat := s2.superheater_heat * r }, none)
        else (s2, none)

/-- Method `Boiler.efficiency` (lines 154-163): precondition `ValueError` when
`boiler_heat` is absent, else
`(boiler_heat - (economiser_heat + air_heat + pump_work + superheater_heat)) / heat_supplied`.
Pure query, no mutation. -/
def efficiency (self : Boiler) (heat_supplied : ℚ) : Except Err ℚ :=
  match self.boiler_heat with
  | none => Except.error Err.precondition
  | some b =>
    let heat := b - (self.economiser_heat + self.air_heat +
                     self.pump_work + self.superheater_heat)
    pydiv heat heat_supplied

/-- Method `Boiler.actual_heat` (lines 166-168): no precondition check; reading the
absent attribute `boiler_heat` raises `AttributeError`; otherwise returns
`boiler_heat - (economiser_heat + air_heat + pump_work + superheater_heat)`.
Pure query, no mutation. -/
def actual_heat (self : Boiler) : Except Err ℚ :=
  match self.boiler_heat with
  | none => Except.error Err.attributeError
  | some b =>
    Except.ok (b - (self.economiser_heat + self.air_heat +
                    self.pump_work + self.superheater_heat))

end Boiler

/-- The states a `Boiler` object can actually be in: its state after
construction, and the state after any further method call on a reachable
state (the post-state of a call that raised included, since Python exceptions
do not roll back mutations to `self`). -/
inductive Reachable (tbl : SteamTables) : Boiler → Prop where
  | init (P1 : ℚ) : Reachable tbl (Boiler.init P1)
  | feed_pump {s : Boiler} (P2 eff : ℚ) :
      Reachable tbl s → Reachable tbl (Boiler.feed_pump s P2 eff).1
  | economiser {s : Boiler} (f1 f2 : ℚ) :
      Reachable tbl s → Reachable tbl (Boiler.economiser tbl s f1 f2).1
  | air_preheater {s : Boiler} (Tp1 : ℚ) (Tp2 : Option ℚ) (eff : ℚ) :
      Reachable tbl s → Reachable tbl (Boiler.air_preheater s Tp1 Tp2 eff).1
  | boiler {s : Boiler} (eff : ℚ) :
      Reachable tbl s → Reachable tbl (Boiler.boiler tbl s eff).1
  | superheater {s : Boiler} (t eff : ℚ) :
      Reachable tbl s → Reachable tbl (Boiler.superheater s t eff).1

/-- A sample steam property provider whose lookups always succeed, for
evaluating the model on concrete inputs. -/
def sampleTable : SteamTables :=
  { tempPX := fun P x => Except.ok (100 + P / 10 + x)
    enthalpyPX := fun P x => Except.ok (400 + P + 2000 * x)
    enthalpyTX := fun T x => Except.ok (4 * T + 2000 * x) }

/-- A steam property provider whose lookups all fail, modelling a request
outside the table range (`InvalidStateError`). -/
def failingTable : SteamTables :=
  { tempPX := fun _ _ => Except.error Err.invalidState
    enthalpyPX := fun _ _ => Except.error Err.invalidState
    enthalpyTX := fun _ _ => Except.error Err.invalidState }

/-! ## Helper lemmas -/

/-- The bound call `self._check_eff(eff)` raises `TypeError` for every
argument: two positional arguments are supplied to a one-parameter
function. -/
theorem self_check_eff_typeError (eff : ℚ) :
    Boiler.self_check_eff eff = Except.error Err.typeError := rfl

/-- Every `feed_pump` call raises `TypeError` at the `self._check_eff` call
and leaves the state unchanged. -/
theorem feed_pump_typeError (s : Boiler) (P2 eff : ℚ) :
    Boiler.feed_pump s P2 eff = (s, some Err.typeError) := rfl

/-- Every `air_preheater` call raises `TypeError` at the `self._check_eff`
call and leaves the state unchanged. -/
theorem air_preheater_typeError (s : Boiler) (Tp1 : ℚ) (Tp2 : Option ℚ)
    (eff : ℚ) :
    Boiler.air_preheater s Tp1 Tp2 eff = (s, some Err.typeError) := rfl

/-- Every `boiler` call raises `TypeError` at the `self._check_eff` call and
leaves the state unchanged. -/
theorem boiler_typeError (tbl : SteamTables) (s : Boiler) (eff : ℚ) :
    Boiler.boiler tbl s eff = (s, some Err.typeError) := rfl

/-- Every `superheater` call raises `TypeError` at the `self._check_eff` call
and leaves the state unchanged. -/
theorem superheater_typeError (s : Boiler) (t eff : ℚ) :
    Boiler.superheater s t eff = (s, some Err.typeError) := rfl

/-- The flue-temperature normalisation is insensitive to argument order. -/
theorem orderFlue_comm (f1 f2 : ℚ) :
    Boiler.orderFlue f1 f2 = Boiler.orderFlue f2 f1 := by
  unfold Boiler.orderFlue
  rcases lt_trichotomy f1 f2 with h | h | h
  · rw [if_pos h, if_neg (not_lt.mpr h.le)]
  · rw [h]
  · rw [if_neg (not_lt.mpr h.le), if_pos h]

/-- After normalisation the first flue temperature dominates the second. -/
theorem orderFlue_snd_le_fst (f1 f2 : ℚ) :
    (Boiler.orderFlue f1 f2).2 ≤ (Boiler.orderFlue f1 f2).1 := by
  unfold Boiler.orderFlue
  split
  · exact le_of_lt (by assumption)
  · exact le_of_not_lt (by assumption)

/-- An `economiser` call either succeeds or has mutated exactly the
`economiser_present` flag (set before the fallible lookup, as in the
source). -/
theorem economiser_shape (tbl : SteamTables) (s : Boiler) (f1 f2 : ℚ) :
    (Boiler.economiser tbl s f1 f2).2 = none ∨
    (Boiler.economiser tbl s f1 f2).1 = { s with economiser_present := true } := by
  unfold Boiler.economiser
  dsimp only
  split
  · right; rfl
  · split
    · right; rfl
    · left; rfl

/-- On success, the `economiser` post-state carries the normalised flue
temperatures. -/
theorem economiser_ok_flue (tbl : SteamTables) (s : Boiler) (f1 f2 : ℚ) :
    (Boiler.economiser tbl s f1 f2).2 ≠ none ∨
    ((Boiler.economiser tbl s f1 f2).1.flue_T1 = some (Boiler.orderFlue f1 f2).1 ∧
     (Boiler.economiser tbl s f1 f2).1.flue_T2 = some (Boiler.orderFlue f1 f2).2) := by
  unfold Boiler.economiser
  dsimp only
  split
  · left; simp
  · split
    · left; simp
    · right; exact ⟨rfl, rfl⟩

/-- No `economiser` branch touches `economiser_heat`. -/
theorem economiser_fst_heat (tbl : SteamTables) (s : Boiler) (f1 f2 : ℚ) :
    (Boiler.economiser tbl s f1 f2).1.economiser_heat = s.economiser_heat := by
  unfold Boiler.economiser
  dsimp only
  split
  · rfl
  · split
    · rfl
    · rfl

/-- In every reachable state `economiser_heat` still holds its `__init__`
value 0: no method ever assigns it. -/
theorem reachable_economiser_heat {tbl : SteamTables} {s : Boiler}
    (h : Reachable tbl s) : s.economiser_heat = 0 := by
  induction h with
  | init P1 => rfl
  | feed_pump P2 eff _ ih => rw [feed_pump_typeError]; exact ih
  | economiser f1 f2 _ ih => rw [economiser_fst_heat]; exact ih
  | air_preheater Tp1 Tp2 eff _ ih => rw [air_preheater_typeError]; exact ih
  | boiler eff _ ih => rw [boiler_typeError]; exact ih
  | superheater t eff _ ih => rw [superheater_typeError]; exact ih

/-! ## Claims -/

/-- C2: because `_check_eff` is declared with the single parameter `eff` and
no `self`, yet is invoked as the bound method `self._check_eff(eff)`, every
call to `feed_pump`, `air_preheater`, `boiler`, or `superheater` raises a
`TypeError` for every argument value, valid or not, before any efficiency
range check or state mutation takes place: the bound call itself returns
`TypeError` (never reaching the range check), and each operation returns its
input state unchanged together with that `TypeError`. -/
theorem C2_bound_call_always_TypeError (tbl : SteamTables) (s : Boiler)
    (P2 Tp1 t eff : ℚ) (Tp2 : Option ℚ) :
    Boiler.self_check_eff eff = Except.error Err.typeError ∧
    Boiler.feed_pump s P2 eff = (s, some Err.typeError) ∧
    Boiler.air_preheater s Tp1 Tp2 eff = (s, some Err.typeError) ∧
    Boiler.boiler tbl s eff = (s, some Err.typeError) ∧
    Boiler.superheater s t eff = (s, some Err.typeError) :=
  ⟨rfl, rfl, rfl, rfl, rfl⟩

/-- C1 (code bug, evaluation at the failing input): with efficiency 2,
outside `[0,1]`, every stage raises `TypeError` — not the
`InvalidEfficiencyError` that the range check in `_check_eff` would raise —
because the bound call `self._check_eff(eff)` fails on arity before the range
check runs; the state is left unchanged.  The range check itself, applied to
its argument as written, would indeed reject 2. -/
theorem C1_out_of_range_eval :
    Boiler.feed_pump (Boiler.init 100) 150 2 = (Boiler.init 100, some Err.typeError) ∧
    Boiler.air_preheater (Boiler.init 100) 20 (some 200) 2 = (Boiler.init 100, some Err.typeError) ∧
    Boiler.boiler sampleTable (Boiler.init 100) 2 = (Boiler.init 100, some Err.typeError) ∧
    Boiler.superheater (Boiler.init 100) 500 2 = (Boiler.init 100, some Err.typeError) ∧
    Boiler.check_eff 2 = Except.error Err.invalidEfficiency ∧
    Err.typeError ≠ Err.invalidEfficiency :=
  ⟨rfl, rfl, rfl, rfl, by norm_num [Boiler.check_eff], by decide⟩

/-- C3 (code bug, evaluation at the failing input): on a freshly constructed
`Boiler(100)`, `effectiveness` and `efficiency` do fail with the explicit
precondition error as claimed, but `actual_heat` has no precondition check
and fails with `AttributeError` on the missing `boiler_heat` attribute, and
`superheater` fails with `TypeError` at the bound `self._check_eff` call
before its precondition check is reached. -/
theorem C3_precondition_eval :
    Boiler.effectiveness (Boiler.init 100) = Except.error Err.precondition ∧
    Boiler.efficiency (Boiler.init 100) 50 = Except.error Err.precondition ∧
    Boiler.actual_heat (Boiler.init 100) = Except.error Err.attributeError ∧
    Boiler.superheater (Boiler.init 100) 500 1 = (Boiler.init 100, some Err.typeError) ∧
    Err.attributeError ≠ Err.precondition ∧
    Err.typeError ≠ Err.precondition :=
  ⟨rfl, rfl, rfl, rfl, by decide, by decide⟩

/-- A state in which the economiser stage has successfully run (flue
temperatures 400 and 300 on a fresh `Boiler(100)`, with the sample
provider). -/
def econFitted : Boiler :=
  (Boiler.economiser sampleTable (Boiler.init 100) 400 300).1

/-- C4 (code bug, evaluation at the failing input): even on a state where the
economiser has run — the highest-priority operating point the claim
describes — `boiler(eff=1)` raises `TypeError` at the bound
`self._check_eff` call, mutates nothing, and never computes `boiler_heat` or
`final_temp`. -/
theorem C4_boiler_eval :
    econFitted.economiser_present = true ∧
    Boiler.boiler sampleTable econFitted 1 = (econFitted, some Err.typeError) ∧
    econFitted.boiler_heat = none ∧
    (Boiler.boiler sampleTable econFitted 1).1.boiler_heat = none ∧
    (Boiler.boiler sampleTable econFitted 1).1.final_temp = none :=
  ⟨rfl, rfl, rfl, rfl, rfl⟩

/-- C5 (counterexample): with a steam-property provider whose lookup fails
(`InvalidStateError`), `economiser` on a fresh `Boiler(100)` raises, yet the
aggregate is not left as it was: `economiser_present` was set to `True`
before the fallible lookup. -/
theorem C5_counterexample_partial_mutation :
    (Boiler.economiser failingTable (Boiler.init 100) 400 300).2 = some Err.invalidState ∧
    (Boiler.economiser failingTable (Boiler.init 100) 400 300).1 ≠ Boiler.init 100 :=
  ⟨rfl, by decide⟩

/-- C5 (amended): every operation of the aggregate that raises leaves the
attributes unchanged, with one exception: `economiser` sets
`economiser_present` before its fallible steam-property lookup, so a failing
`economiser` call leaves exactly that flag mutated.  (`feed_pump`,
`air_preheater`, `boiler` and `superheater` always raise at the bound
`self._check_eff` call, before any mutation; `effectiveness`, `efficiency`
and `actual_heat` are queries and mutate nothing.) -/
theorem C5_amended_validate_then_mutate (tbl : SteamTables) (s : Boiler) :
    (∀ P2 eff, (Boiler.feed_pump s P2 eff).1 = s) ∧
    (∀ Tp1 Tp2 eff, (Boiler.air_preheater s Tp1 Tp2 eff).1 = s) ∧
    (∀ eff, (Boiler.boiler tbl s eff).1 = s) ∧
    (∀ t eff, (Boiler.superheater s t eff).1 = s) ∧
    (∀ f1 f2, (Boiler.economiser tbl s f1 f2).2 ≠ none →
      (Boiler.economiser tbl s f1 f2).1 = { s with economiser_present := true }) :=
  ⟨fun _ _ => rfl, fun _ _ _ => rfl, fun _ => rfl, fun _ _ => rfl,
   fun f1 f2 h => (economiser_shape tbl s f1 f2).resolve_left h⟩

/-- C5 (amended, witness): on a fresh `Boiler(100)` with the failing
provider, the raising `economiser` call leaves exactly the
`economiser_present` flag set. -/
theorem C5_amended_witness :
    (Boiler.economiser failingTable (Boiler.init 100) 400 300).1 =
      { Boiler.init 100 with economiser_present := true } :=
  (C5_amended_validate_then_mutate failingTable (Boiler.init 100)).2.2.2.2 400 300
    (by decide)

/-- C6 (code bug, evaluation at the failing input): `air_preheater` called on
a fresh `Boiler(100)` with no economiser fitted and no outlet air temperature
raises `TypeError` at the bound `self._check_eff` call — not the
`MissingParameterError` the claim (and spec scenario) require — and mutates
nothing. -/
theorem C6_air_preheater_eval :
    Boiler.air_preheater (Boiler.init 100) 20 none 1 = (Boiler.init 100, some Err.typeError) ∧
    Err.typeError ≠ Err.missingParameter :=
  ⟨rfl, by decide⟩

/-- C7: for all flue-gas temperatures `f1` and `f2`, `economiser(f1, f2)` and
`economiser(f2, f1)` produce identical results (identical post-state — in
particular identical `flue_T1`, `flue_T2`, `econ_T2` — and identical error
outcome), and whenever the call completes, `flue_T1 ≥ flue_T2` holds in the
post-state (reversed inputs are swapped, never rejected). -/
theorem C7_economiser_order_independent (tbl : SteamTables) (s : Boiler)
    (f1 f2 : ℚ) :
    Boiler.economiser tbl s f1 f2 = Boiler.economiser tbl s f2 f1 ∧
    ((Boiler.economiser tbl s f1 f2).2 = none →
      ∃ a b, (Boiler.economiser tbl s f1 f2).1.flue_T1 = some a ∧
             (Boiler.economiser tbl s f1 f2).1.flue_T2 = some b ∧ b ≤ a) := by
  constructor
  · unfold Boiler.economiser
    rw [orderFlue_comm f1 f2]
  · intro hok
    rcases economiser_ok_flue tbl s f1 f2 with hfail | ⟨h1, h2⟩
    · exact absurd hok hfail
    · exact ⟨(Boiler.orderFlue f1 f2).1, (Boiler.orderFlue f1 f2).2, h1, h2,
        orderFlue_snd_le_fst f1 f2⟩

/-- C7 (witness): concrete instance with flue temperatures 300 and 400 on a
fresh `Boiler(100)`: both argument orders agree and the normalised flue
temperatures in the post-state are ordered. -/
theorem C7_witness :
    Boiler.economiser sampleTable (Boiler.init 100) 300 400 =
      Boiler.economiser sampleTable (Boiler.init 100) 400 300 ∧
    (∃ a b, (Boiler.economiser sampleTable (Boiler.init 100) 300 400).1.flue_T1 = some a ∧
            (Boiler.economiser sampleTable (Boiler.init 100) 300 400).1.flue_T2 = some b ∧
            b ≤ a) :=
  ⟨(C7_economiser_order_independent sampleTable (Boiler.init 100) 300 400).1,
   (C7_economiser_order_independent sampleTable (Boiler.init 100) 300 400).2 rfl⟩

/-- A state in which the boiler stage is stipulated to have run:
`boiler_heat` and `final_temp` present (2000 and 400). -/
def postBoiler : Boiler :=
  { Boiler.init 100 with boiler_heat := some 2000, final_temp := some 400 }

/-- C8 (code bug, evaluation at the failing input): even on a state where the
boiler stage has run (`boiler_heat` and `final_temp` present),
`superheater(target, eff=1)` raises `TypeError` at the bound
`self._check_eff` call for a target above (500) and below (300) the current
`final_temp`, and `final_temp` is not updated to the target. -/
theorem C8_superheater_eval :
    Boiler.superheater postBoiler 500 1 = (postBoiler, some Err.typeError) ∧
    Boiler.superheater postBoiler 300 1 = (postBoiler, some Err.typeError) ∧
    (Boiler.superheater postBoiler 500 1).1.final_temp ≠ some 500 :=
  ⟨rfl, rfl, by decide⟩

/-- C9: in every reachable state of the aggregate, `economiser_heat` equals 0
(no operation ever assigns it after construction), so whenever `actual_heat`
or `efficiency(heatSupplied)` returns a value, its net-heat numerator equals
`boiler_heat − (air_heat + pump_work + superheater_heat)`. -/
theorem C9_economiser_heat_invariant (tbl : SteamTables) (s : Boiler)
    (h : Reachable tbl s) :
    s.economiser_heat = 0 ∧
    (∀ v, Boiler.actual_heat s = Except.ok v →
      ∃ b, s.boiler_heat = some b ∧
        v = b - (s.air_heat + s.pump_work + s.superheater_heat)) ∧
    (∀ hs v, Boiler.efficiency s hs = Except.ok v →
      ∃ b, s.boiler_heat = some b ∧
        v = (b - (s.air_heat + s.pump_work + s.superheater_heat)) / hs) := by
  have h0 := reachable_economiser_heat h
  refine ⟨h0, ?_, ?_⟩
  · intro v hv
    unfold Boiler.actual_heat at hv
    rcases hb : s.boiler_heat with _ | b
    · rw [hb] at hv
      exact absurd hv (by simp)
    · rw [hb] at hv
      simp only [Except.ok.injEq] at hv
      refine ⟨b, rfl, ?_⟩
      rw [← hv, h0]
      ring
  · intro hs v hv
    unfold Boiler.efficiency at hv
    rcases hb : s.boiler_heat with _ | b
    · rw [hb] at hv
      exact absurd hv (by simp)
    · rw [hb] at hv
      dsimp only [pydiv] at hv
      by_cases hz : hs = 0
      · rw [if_pos hz] at hv
        exact absurd hv (by simp)
      · rw [if_neg hz] at hv
        simp only [Except.ok.injEq] at hv
        refine ⟨b, rfl, ?_⟩
        rw [← hv, h0]
        ring_nf
/-- C9 (witness): the freshly constructed `Boiler(100)` is reachable and its
`economiser_heat` is 0. -/
theorem C9_witness : (Boiler.init 100).economiser_heat = 0 :=
  (C9_economiser_heat_invariant sampleTable (Boiler.init 100)
    (Reachable.init 100)).1

/-- C10 (counterexample): passing efficiency 0 to `feed_pump` or
`air_preheater` on a fresh `Boiler(100)` does not fail with a
division-by-zero error after mutating state — it fails with `TypeError` at
the bound `self._check_eff` call, with the state left unchanged. -/
theorem C10_counterexample_zero_eff :
    Boiler.feed_pump (Boiler.init 100) 150 0 = (Boiler.init 100, some Err.typeError) ∧
    Boiler.air_preheater (Boiler.init 100) 20 (some 200) 0 = (Boiler.init 100, some Err.typeError) ∧
    Err.typeError ≠ Err.zeroDivision :=
  ⟨rfl, rfl, by decide⟩

/-- C10 (amended): efficiency 0 does lie inside the range accepted by the
`_check_eff` range test, but every call to `feed_pump`, `air_preheater`, or
`superheater` with efficiency 0 raises `TypeError` at the bound
`self._check_eff` call, before the range check, before any mutation, and
before the `1/efficiency` scaling branch can divide by zero. -/
theorem C10_amended_zero_eff (s : Boiler) (P2 Tp1 t : ℚ) (Tp2 : Option ℚ) :
    Boiler.check_eff 0 = Except.ok 0 ∧
    Boiler.feed_pump s P2 0 = (s, some Err.typeError) ∧
    Boiler.air_preheater s Tp1 Tp2 0 = (s, some Err.typeError) ∧
    Boiler.superheater s t 0 = (s, some Err.typeError) :=
  ⟨by norm_num [Boiler.check_eff], rfl, rfl, rfl⟩
